import Mathlib

/-!
Verification of the Gherkin-to-DBT test generation core of the
`LLM_powered_DBT` repository.

The Python sources are embedded shallowly: each Python string operation is
mirrored by a total function on `List Char` (wrapped in `String` at the
interface), and each function under verification
(`GherkinDSLParser.parse_feature`, `DBTTestGenerator.detect_key_columns`,
`DBTTestGenerator._extract_all_columns`,
`CodeCoverageAnalyzer.extract_columns_from_model`, and the rule-emission
block of `generate_dbt_schema_test`) is translated statement by statement.
-/

/-! ### Python string primitives -/

/-- The ASCII whitespace characters stripped by Python `str.strip()` and
matched by `\s` on ASCII input. -/
def isWs (c : Char) : Bool :=
  c = ' ' || c = '\t' || c = '\n' || c = '\r' || c = '\x0b' || c = '\x0c'

/-- `str.strip()` on the underlying character list. -/
def trimChars (l : List Char) : List Char :=
  ((l.dropWhile isWs).reverse.dropWhile isWs).reverse

/-- `str.strip()`. -/
def pyStrip (s : String) : String := ⟨trimChars s.data⟩

/-- `str.startswith(p)`. -/
def pyStartsWith (s p : String) : Bool := p.data.isPrefixOf s.data

/-- `str.endswith(p)`. -/
def pyEndsWith (s p : String) : Bool := p.data.isSuffixOf s.data

/-- `str.lower()` (ASCII). -/
def pyLower (s : String) : String := ⟨s.data.map Char.toLower⟩

/-- One fuel-indexed step list for `str.replace`: replaces non-overlapping
leftmost occurrences of `pat` by `repl`, as Python `str.replace` does. -/
def replaceAllAux (pat repl : List Char) : Nat → List Char → List Char
  | 0, l => l
  | _ + 1, [] => []
  | fuel + 1, c :: rest =>
    if pat.isPrefixOf (c :: rest) then
      repl ++ replaceAllAux pat repl fuel ((c :: rest).drop pat.length)
    else
      c :: replaceAllAux pat repl fuel rest

/-- `str.replace(pat, repl)` (all occurrences). -/
def pyReplace (s pat repl : String) : String :=
  if pat.data.isEmpty then s
  else ⟨replaceAllAux pat.data repl.data s.data.length s.data⟩

/-- `text.split('\n')`. -/
def pySplitLines (s : String) : List String :=
  (s.data.splitOn '\n').map (fun l => ⟨l⟩)

/-- Substring test: `containsSub sub l` is Python `sub in l`. -/
def containsSub (sub : List Char) : List Char → Bool
  | [] => sub.isPrefixOf []
  | c :: rest => sub.isPrefixOf (c :: rest) || containsSub sub rest

/-- Python `sub in s`. -/
def pyContains (s sub : String) : Bool := containsSub sub.data s.data

/-- `str.split()` with no argument: split on whitespace runs, dropping
empty fields. -/
def splitWords (l : List Char) : List (List Char) :=
  (l.splitOnP isWs).filter (· ≠ [])

/-! ### Data model (`Feature` / `Scenario` dictionaries) -/

/-- The scenario dictionary built by `parse_feature`: name plus the three
ordered statement lists (`when`/`then` are Lean keywords, hence the
underscores). -/
structure Scenario where
  name : String
  given : List String
  when_ : List String
  then_ : List String
deriving Repr, DecidableEq

/-- The feature dictionary built by `parse_feature`. -/
structure Feature where
  name : String
  description : String
  scenarios : List Scenario
deriving Repr, DecidableEq

/-! ### `GherkinDSLParser.parse_feature` (dbt_llm_gherkin_dsl.py 250-295) -/

/-- The loop state of `parse_feature`: the feature fields accumulated so
far plus the currently open scenario (`current_scenario` in the source). -/
structure ParseState where
  name : String
  description : String
  scenarios : List Scenario
  current : Option Scenario
deriving Repr, DecidableEq

/-- One iteration of the `for line in lines` loop of `parse_feature`. -/
def parseLine (st : ParseState) (rawLine : String) : ParseState :=
  let line := pyStrip rawLine
  if pyStartsWith line "Feature:" then
    { st with name := pyStrip (pyReplace line "Feature:" "") }
  else if pyStartsWith line "Scenario:" then
    { st with
      scenarios := st.scenarios ++ (match st.current with
        | some sc => [sc]
        | none => []),
      current := some { name := pyStrip (pyReplace line "Scenario:" ""),
                        given := [], when_ := [], then_ := [] } }
  else if pyStartsWith line "Given" then
    match st.current with
    | some sc =>
      { st with current := some { sc with
          given := sc.given ++ [pyStrip (pyReplace line "Given" "")] } }
    | none => st
  else if pyStartsWith line "And" then
    match st.current with
    | some sc =>
      if sc.then_ ≠ [] then
        { st with current := some { sc with
            then_ := sc.then_ ++ [pyStrip (pyReplace line "And" "")] } }
      else if sc.when_ ≠ [] then
        { st with current := some { sc with
            when_ := sc.when_ ++ [pyStrip (pyReplace line "And" "")] } }
      else if sc.given ≠ [] then
        { st with current := some { sc with
            given := sc.given ++ [pyStrip (pyReplace line "And" "")] } }
      else st
    | none => st
  else if pyStartsWith line "When" then
    match st.current with
    | some sc =>
      { st with current := some { sc with
          when_ := sc.when_ ++ [pyStrip (pyReplace line "When" "")] } }
    | none => st
  else if pyStartsWith line "Then" then
    match st.current with
    | some sc =>
      { st with current := some { sc with
          then_ := sc.then_ ++ [pyStrip (pyReplace line "Then" "")] } }
    | none => st
  else st

/-- The initial state of `parse_feature`: empty name and description, no
scenarios, no open scenario. -/
def initParseState : ParseState :=
  { name := "", description := "", scenarios := [], current := none }

/-- `GherkinDSLParser.parse_feature`: strip the text, split into lines,
run the line loop, and append the still-open scenario at end of input. -/
def parse_feature (feature_text : String) : Feature :=
  let lines := pySplitLines (pyStrip feature_text)
  let stF := lines.foldl parseLine initParseState
  { name := stF.name,
    description := stF.description,
    scenarios := stF.scenarios ++ (match stF.current with
      | some sc => [sc]
      | none => []) }

/-- A line that (after stripping) begins with `Scenario:` — the lines that
open a scenario in `parse_feature`. -/
def isScenarioLine (line : String) : Bool :=
  pyStartsWith (pyStrip line) "Scenario:"

/-- The number of `Scenario:` lines the parser sees in `text`. -/
def scenario_line_count (text : String) : Nat :=
  ((pySplitLines (pyStrip text)).filter isScenarioLine).length

/-! ### `DBTTestGenerator.detect_key_columns` (dbt_test_snowflake.py 74-108) -/

/-- The `key_info` dictionary of `detect_key_columns`. -/
structure KeyInfo where
  primary_keys : List String
  foreign_keys : List String
  date_columns : List String
  amount_columns : List String
  status_columns : List String
deriving Repr, DecidableEq

/-- Python `re.match(r'^[a-z]+_id$', s)`: one or more lowercase ASCII
letters followed by the literal `_id`, matching the whole string. -/
def matchesLowerId (s : String) : Bool :=
  pyEndsWith s "_id" &&
    (let stem := s.data.take (s.data.length - 3)
     !stem.isEmpty && stem.all (fun c => 'a' ≤ c && c ≤ 'z'))

/-- The date keywords of `detect_key_columns` (note: no `time`). -/
def date_words : List String := ["date", "timestamp", "created", "updated", "modified"]

/-- The amount keywords of `detect_key_columns` (note: no `value`,
`quantity` or `count`). -/
def amount_words : List String := ["amount", "price", "cost", "total", "sum", "revenue"]

/-- The status keywords of `detect_key_columns`. -/
def status_words : List String := ["status", "state", "type", "category"]

/-- The body of the `for col in columns` loop of `detect_key_columns`:
each of the five bucket tests is an independent `if`, so one column may be
appended to several buckets. -/
def detectOne (key_info : KeyInfo) (col : String) : KeyInfo :=
  let col_lower := pyLower col
  let ki1 :=
    if (col_lower == "id" || col_lower == "pk") ||
       (pyEndsWith col_lower "_id" && !pyStartsWith col_lower "fk_") then
      if (col_lower == "id" || col_lower == "pk") || matchesLowerId col_lower then
        { key_info with primary_keys := key_info.primary_keys ++ [col] }
      else key_info
    else key_info
  let ki2 :=
    if pyStartsWith col_lower "fk_" || (pyEndsWith col_lower "_id" && col_lower != "id") then
      { ki1 with foreign_keys := ki1.foreign_keys ++ [col] }
    else ki1
  let ki3 :=
    if date_words.any (fun w => pyContains col_lower w) then
      { ki2 with date_columns := ki2.date_columns ++ [col] }
    else ki2
  let ki4 :=
    if amount_words.any (fun w => pyContains col_lower w) then
      { ki3 with amount_columns := ki3.amount_columns ++ [col] }
    else ki3
  let ki5 :=
    if status_words.any (fun w => pyContains col_lower w) then
      { ki4 with status_columns := ki4.status_columns ++ [col] }
    else ki4
  ki5

/-- `DBTTestGenerator.detect_key_columns`. -/
def detect_key_columns (columns : List String) : KeyInfo :=
  columns.foldl detectOne
    { primary_keys := [], foreign_keys := [], date_columns := [],
      amount_columns := [], status_columns := [] }

/-! ### `DBTTestGenerator._extract_all_columns`
(dbt_llm_gherkin_dsl.py 1073-1083, identical in dbt_llm_cov4.py 727-737) -/

/-- ASCII `str.isidentifier()`: nonempty, first char letter or underscore,
remaining chars alphanumeric or underscore. -/
def pyIsIdentifier (s : String) : Bool :=
  match s.data with
  | [] => false
  | c :: rest => (c.isAlpha || c = '_') && rest.all (fun d => d.isAlphanum || d = '_')

/-- The ordered sequence of `columns.add(word.lower())` calls performed by
`_extract_all_columns` while scanning every scenario's `given`, `when`,
`then` lists (duplicates included). -/
def extract_all_columns_adds (feature : Feature) : List String :=
  feature.scenarios.foldl (fun acc sc =>
    [sc.given, sc.when_, sc.then_].foldl (fun acc2 clauses =>
      clauses.foldl (fun acc3 clause =>
        (splitWords clause.data).foldl (fun acc4 word =>
          if pyIsIdentifier ⟨word⟩ && word.length > 2 then
            acc4 ++ [pyLower ⟨word⟩]
          else acc4) acc3) acc2) acc) []

/-- First-occurrence deduplication helper. -/
def dedupFirstAux {α : Type} [DecidableEq α] (seen : List α) : List α → List α
  | [] => []
  | x :: rest =>
    if x ∈ seen then dedupFirstAux seen rest
    else x :: dedupFirstAux (x :: seen) rest

/-- First-occurrence deduplication: the contents of a Python `set` built
by successive `add` calls, here enumerated in first-insertion order (the
source's `list(set(...))` enumerates the same elements in an unspecified,
hash-dependent order). -/
def dedupFirst {α : Type} [DecidableEq α] (l : List α) : List α :=
  dedupFirstAux [] l

/-- The contents of the `columns` set of `_extract_all_columns`, before
the source's `list(columns)[:5]` truncation. -/
def extract_all_columns_set (feature : Feature) : List String :=
  dedupFirst (extract_all_columns_adds feature)

/-! ### `CodeCoverageAnalyzer.extract_columns_from_model`
(dbt_llm_cov4.py 1078-1097) -/

/-- Leading ASCII-whitespace run length. -/
def wsRun : List Char → Nat
  | [] => 0
  | c :: rest => if isWs c then wsRun rest + 1 else 0

/-- Case-insensitive literal prefix test (`pat` given lower-case). -/
def ciStartsWith (l pat : List Char) : Bool :=
  (l.take pat.length).map Char.toLower == pat

/-- The lazy-capture scan of `select\s+(.*?)\s+from`: starting inside the
projection, find the earliest split `C ++ ws-run ++ "from" ++ rest` and
return the capture `C` together with `rest`. -/
def findCapture : Nat → List Char → Option (List Char × List Char)
  | 0, _ => none
  | _ + 1, [] => none
  | fuel + 1, c :: rest =>
    let l := c :: rest
    let k := wsRun l
    if k ≥ 1 && ciStartsWith (l.drop k) ['f', 'r', 'o', 'm'] then
      some ([], (l.drop k).drop 4)
    else
      match findCapture fuel rest with
      | some (cap, after) => some (c :: cap, after)
      | none => none

/-- Matching of `\s+(.*?)\s+from` immediately after a `select` keyword,
including the backtracking case where the whole capture is empty and the
two `\s+` share the single whitespace run before `from`. -/
def matchAfterSelect (cs : List Char) : Option (List Char × List Char) :=
  let m := wsRun cs
  if m = 0 then none
  else
    let body := cs.drop m
    match findCapture body.length body with
    | some (cap, after) => some (cap, after)
    | none =>
      if m ≥ 2 && ciStartsWith body ['f', 'r', 'o', 'm'] then
        some ([], body.drop 4)
      else none

/-- `re.findall(r'select\s+(.*?)\s+from', sql, re.IGNORECASE | re.DOTALL)`:
scan left to right, emit each capture, resume after the matched `from`. -/
def findAllSelect : Nat → List Char → List (List Char)
  | 0, _ => []
  | _ + 1, [] => []
  | fuel + 1, c :: rest =>
    let l := c :: rest
    if ciStartsWith l ['s', 'e', 'l', 'e', 'c', 't'] then
      match matchAfterSelect (l.drop 6) with
      | some (cap, after) => cap :: findAllSelect fuel after
      | none => findAllSelect fuel rest
    else findAllSelect fuel rest

/-- `re.sub(r'--.*', '', col)`: delete from each `--` to the end of its
line (`.` does not match the newline). -/
def cutLineComment : Nat → List Char → List Char
  | 0, l => l
  | _ + 1, [] => []
  | fuel + 1, c :: rest =>
    if c = '-' && rest.head? = some '-' then
      cutLineComment fuel ((c :: rest).dropWhile (· ≠ '\n'))
    else c :: cutLineComment fuel rest

/-- Skip to just past the earliest `*/`, if any. -/
def afterBlockClose : List Char → Option (List Char)
  | [] => none
  | '*' :: '/' :: rest => some rest
  | _ :: rest => afterBlockClose rest

/-- `re.sub(r'/\*.*?\*/', '', col, flags=re.DOTALL)`: delete each
non-greedy block comment; an unclosed `/*` is left in place. -/
def cutBlockComment : Nat → List Char → List Char
  | 0, l => l
  | _ + 1, [] => []
  | fuel + 1, c :: rest =>
    if c = '/' && rest.head? = some '*' then
      match afterBlockClose rest.tail with
      | some after => cutBlockComment fuel after
      | none => c :: cutBlockComment fuel rest
    else c :: cutBlockComment fuel rest

/-- `re.sub(r'\s+as\s+', ' ', col, re.IGNORECASE)`: because `re.IGNORECASE`
is passed positionally it is the `count` argument (value 2), so this is a
case-sensitive replacement of at most two occurrences. -/
def subAsAux : Nat → Nat → List Char → List Char
  | 0, _, l => l
  | _ + 1, _, [] => []
  | fuel + 1, count, c :: rest =>
    let l := c :: rest
    if count = 0 then l
    else if isWs c then
      let r1 := wsRun l
      let afterWs := l.drop r1
      if ['a', 's'].isPrefixOf afterWs then
        let afterAs := afterWs.drop 2
        let r2 := wsRun afterAs
        if r2 ≥ 1 then ' ' :: subAsAux fuel (count - 1) (afterAs.drop r2)
        else c :: subAsAux fuel count rest
      else c :: subAsAux fuel count rest
    else c :: subAsAux fuel count rest

/-- The `as`-normalization step of `extract_columns_from_model`. -/
def subAs (l : List Char) : List Char := subAsAux l.length 2 l

/-- `str.strip('()')`. -/
def stripParens (l : List Char) : List Char :=
  let isParen := fun c => c = '(' || c = ')'
  ((l.dropWhile isParen).reverse.dropWhile isParen).reverse

/-- The SQL keywords that `extract_columns_from_model` discards. -/
def reservedWords : List String := ["from", "where", "group", "order", "having"]

/-- The body of the `for col in cols` loop of
`extract_columns_from_model`: strip comments, normalize `as`, take the
last whitespace-delimited token, strip parentheses, and keep it unless it
is empty or a reserved word. -/
def column_of_item (col0 : List Char) : Option String :=
  let col1 := cutLineComment col0.length col0
  let col2 := cutBlockComment col1.length col1
  let col3 := subAs col2
  let words := splitWords (trimChars col3)
  match words.getLast? with
  | none => none
  | some w =>
    let col_name : String := ⟨stripParens w⟩
    if col_name != "" && !reservedWords.contains col_name then some col_name
    else none

/-- `CodeCoverageAnalyzer.extract_columns_from_model`: the source returns
`list(set(columns))`; the set contents are modelled as the
first-occurrence deduplication of the appended names. -/
def extract_columns_from_model (model_sql : String) : List String :=
  let found := findAllSelect model_sql.data.length model_sql.data
  dedupFirst (found.flatMap (fun mtch => (mtch.splitOn ',').filterMap column_of_item))

/-! ### Rule emission from `Then` clauses
(`generate_dbt_schema_test`, app.py 82-126) -/

/-- Word characters of the regex `\w` (ASCII). -/
def isWordChar (c : Char) : Bool := c.isAlphanum || c = '_'

/-- One attempted match of `column[s]?\s+(\w+)` at the head of `l`:
`column` (case-insensitive), optional greedy `s`, whitespace, captured
word. -/
def colPatternAt (l : List Char) : Option (List Char) :=
  if ciStartsWith l ['c', 'o', 'l', 'u', 'm', 'n'] then
    let rest := l.drop 6
    let tryTail := fun (t : List Char) =>
      let r := wsRun t
      if r ≥ 1 then
        let w := (t.drop r).takeWhile isWordChar
        if w ≠ [] then some w else none
      else none
    match (if ciStartsWith rest ['s'] then tryTail (rest.drop 1) else none) with
    | some w => some w
    | none => tryTail rest
  else none

/-- Leftmost search for `column[s]?\s+(\w+)`. -/
def colSearch : Nat → List Char → Option String
  | 0, _ => none
  | _ + 1, [] => none
  | fuel + 1, c :: rest =>
    match colPatternAt (c :: rest) with
    | some w => some ⟨w⟩
    | none => colSearch fuel rest

/-- `re.search(r'column[s]?\s+(\w+)', stmt, re.IGNORECASE)`. -/
def col_match (stmt : String) : Option String :=
  colSearch stmt.data.length stmt.data

/-- One attempted match of `(?:to|from|in)\s+(\w+)` at the head of `l`
for a single keyword alternative. -/
def kwPatternAt (kw l : List Char) : Option (List Char) :=
  if ciStartsWith l kw then
    let t := l.drop kw.length
    let r := wsRun t
    if r ≥ 1 then
      let w := (t.drop r).takeWhile isWordChar
      if w ≠ [] then some w else none
    else none
  else none

/-- Leftmost search for `(?:to|from|in)\s+(\w+)`. -/
def refSearch : Nat → List Char → Option String
  | 0, _ => none
  | _ + 1, [] => none
  | fuel + 1, c :: rest =>
    let l := c :: rest
    match kwPatternAt ['t', 'o'] l with
    | some w => some ⟨w⟩
    | none =>
      match kwPatternAt ['f', 'r', 'o', 'm'] l with
      | some w => some ⟨w⟩
      | none =>
        match kwPatternAt ['i', 'n'] l with
        | some w => some ⟨w⟩
        | none => refSearch fuel rest

/-- `re.search(r'(?:to|from|in)\s+(\w+)', stmt, re.IGNORECASE)`. -/
def ref_match (stmt : String) : Option String :=
  refSearch stmt.data.length stmt.data

/-- `re.findall(r"'([^']+)'", stmt)`: every non-overlapping nonempty
single-quoted run. -/
def findQuoted : Nat → List Char → List String
  | 0, _ => []
  | _ + 1, [] => []
  | fuel + 1, c :: rest =>
    if c = '\'' then
      let v := rest.takeWhile (· ≠ '\'')
      if v ≠ [] && (rest.drop v.length).head? = some '\'' then
        (⟨v⟩ : String) :: findQuoted fuel (rest.drop (v.length + 1))
      else findQuoted fuel rest
    else findQuoted fuel rest

/-- `re.findall(r"'([^']+)'", stmt)`. -/
def values_match (stmt : String) : List String :=
  findQuoted stmt.data.length stmt.data

/-- The column-level test identifiers emitted by
`generate_dbt_schema_test`. -/
inductive DbtRule where
  | not_null : DbtRule
  | unique : DbtRule
  | relationships (to_table : String) : DbtRule
  | accepted_values (values : List String) : DbtRule
deriving Repr, DecidableEq

/-- The rule emissions of `generate_dbt_schema_test` for one `Then`
statement: four independent substring-driven blocks, each of which also
requires the `column[s]? <name>` pattern to find a column. -/
def schema_rules_of_then (then_stmt : String) : List (String × DbtRule) :=
  let lower := pyLower then_stmt
  (if pyContains lower "not null" then
    match col_match then_stmt with
    | some c => [(c, DbtRule.not_null)]
    | none => []
   else []) ++
  (if pyContains lower "unique" then
    match col_match then_stmt with
    | some c => [(c, DbtRule.unique)]
    | none => []
   else []) ++
  (if pyContains lower "relationship" || pyContains lower "references" then
    match col_match then_stmt, ref_match then_stmt with
    | some c, some r => [(c, DbtRule.relationships r)]
    | _, _ => []
   else []) ++
  (if pyContains lower "accepted_values" || pyContains lower "one of" then
    match col_match then_stmt with
    | some c => [(c, DbtRule.accepted_values (values_match then_stmt))]
    | none => []
   else [])

/-- The rule emissions of `generate_dbt_schema_test` over a scenario's
whole `then` list. -/
def generate_dbt_schema_rules (scenario_then : List String) : List (String × DbtRule) :=
  scenario_then.flatMap schema_rules_of_then

/-- The number of scenarios accounted for by a parser state: the appended
ones plus the still-open one. -/
def scenCount (st : ParseState) : Nat :=
  st.scenarios.length + (if st.current.isSome then 1 else 0)

/-! ### Helper lemmas -/

theorem isPrefixOf_head {p d : List Char} (h : p.isPrefixOf d = true) (hp : p ≠ []) :
    d.head? = p.head? := by
  cases p with
  | nil => exact absurd rfl hp
  | cons a pt =>
    cases d with
    | nil => simp [List.isPrefixOf] at h
    | cons b dt =>
      simp only [List.isPrefixOf, Bool.and_eq_true, beq_iff_eq] at h
      simp [h.1]

theorem pyStartsWith_excl (s p q : String) (hp : p.data ≠ []) (hq : q.data ≠ [])
    (hne : p.data.head? ≠ q.data.head?) (h : pyStartsWith s p = true) :
    pyStartsWith s q = false := by
  unfold pyStartsWith at *
  cases hc : q.data.isPrefixOf s.data
  · rfl
  · exact absurd ((isPrefixOf_head h hp).symm.trans (isPrefixOf_head hc hq)) hne

theorem parseLine_scenCount (st : ParseState) (l : String) :
    scenCount (parseLine st l) = scenCount st + (if isScenarioLine l then 1 else 0) := by
  obtain ⟨nm, ds, scs, cur⟩ := st
  by_cases h1 : pyStartsWith (pyStrip l) "Feature:" = true
  · have h2 : pyStartsWith (pyStrip l) "Scenario:" = false :=
      pyStartsWith_excl (pyStrip l) "Feature:" "Scenario:" (by decide) (by decide)
        (by decide) h1
    cases cur <;> simp [parseLine, isScenarioLine, scenCount, h1, h2]
  · by_cases h2 : pyStartsWith (pyStrip l) "Scenario:" = true
    · cases cur <;> simp [parseLine, isScenarioLine, scenCount, h1, h2]
    · cases cur <;>
        simp [parseLine, isScenarioLine, scenCount, h1, h2] <;>
        split_ifs <;> simp_all

theorem foldl_parseLine_scenCount (lines : List String) : ∀ st : ParseState,
    scenCount (lines.foldl parseLine st) =
      scenCount st + (lines.filter isScenarioLine).length := by
  induction lines with
  | nil => intro st; simp
  | cons l ls ih =>
    intro st
    simp only [List.foldl_cons, List.filter_cons]
    rw [ih, parseLine_scenCount]
    by_cases h : isScenarioLine l = true <;> simp [h] <;> omega

theorem parse_feature_scenarios_length (text : String) :
    (parse_feature text).scenarios.length = scenario_line_count text := by
  have h := foldl_parseLine_scenCount (pySplitLines (pyStrip text)) initParseState
  have hinit : scenCount initParseState = 0 := rfl
  rw [hinit, Nat.zero_add] at h
  unfold parse_feature scenario_line_count
  simp only [scenCount] at h
  cases hcur : ((pySplitLines (pyStrip text)).foldl parseLine initParseState).current <;>
    simp [hcur] at h ⊢ <;> omega

theorem parseLine_description (st : ParseState) (l : String) :
    (parseLine st l).description = st.description := by
  obtain ⟨nm, ds, scs, cur⟩ := st
  cases cur <;> simp [parseLine] <;> split_ifs <;> rfl

theorem foldl_parseLine_description (lines : List String) : ∀ st : ParseState,
    (lines.foldl parseLine st).description = st.description := by
  induction lines with
  | nil => intro st; rfl
  | cons l ls ih =>
    intro st
    simp only [List.foldl_cons]
    rw [ih, parseLine_description]

/-! ### Claim theorems -/

/-- C3: for every input text, the number of scenarios in the `Feature`
returned by `parse_feature` equals the number of lines that (after
stripping) begin with `Scenario:` — every opened scenario is appended
exactly once, including the one still open at end of input. -/
theorem parse_scenario_count (text : String) :
    (parse_feature text).scenarios.length = scenario_line_count text :=
  parse_feature_scenarios_length text

/-- C10: for every input text, the `Feature` returned by `parse_feature`
has an empty `description`: the field is initialized to `""` and no
parsing step ever writes to it. -/
theorem parse_description_empty (text : String) :
    (parse_feature text).description = "" := by
  unfold parse_feature
  simp only []
  rw [foldl_parseLine_description]
  rfl

/-- C8: `parse_feature` is a total function (the embedding is a plain
`def`, mirroring straight-line Python string operations that cannot
raise), and on input with no `Scenario:` line — in particular arbitrary
malformed text — it returns a `Feature` whose scenario list is empty, the
"nothing parsed" signal. -/
theorem parse_total_no_scenarios (text : String)
    (h : scenario_line_count text = 0) :
    (parse_feature text).scenarios = [] := by
  have hl := parse_feature_scenarios_length text
  rw [h] at hl
  exact List.length_eq_zero.mp hl

theorem parse_total_no_scenarios_witness :
    scenario_line_count "some random prose\n@@ not gherkin $$\n12345" = 0 ∧
    (parse_feature "some random prose\n@@ not gherkin $$\n12345").scenarios = [] :=
  ⟨by decide, parse_total_no_scenarios _ (by decide)⟩

/-- C4 counterexample: with two `Feature:` lines the parser keeps the name
of the LAST one, not the first — each `Feature:` line overwrites the
name. -/
theorem feature_line_counterexample :
    (parse_feature "Feature: A\nFeature: B").name = "B" ∧ ("B" : String) ≠ "A" := by
  constructor
  · decide
  · decide

/-- C4 amended: every line beginning (after stripping) with `Feature:`
overwrites the feature name with the text after the keyword, stripped;
scenarios and the open scenario are untouched. Hence with several
`Feature:` lines the final name comes from the last one. -/
theorem feature_line_overwrites_name (st : ParseState) (l : String)
    (h : pyStartsWith (pyStrip l) "Feature:" = true) :
    (parseLine st l).name = pyStrip (pyReplace (pyStrip l) "Feature:" "") ∧
    (parseLine st l).scenarios = st.scenarios ∧
    (parseLine st l).current = st.current := by
  simp [parseLine, h]

theorem feature_line_overwrites_name_witness :
    (parseLine { name := "A", description := "", scenarios := [], current := none }
      "Feature: B").name = "B" :=
  (feature_line_overwrites_name
    { name := "A", description := "", scenarios := [], current := none }
    "Feature: B" (by decide)).1

/-- C9 counterexample: `line.replace('Given', '')` removes EVERY
occurrence of `Given`, not just the leading keyword: the line
`Given Given x` appends `"x"`, not the post-keyword remainder
`"Given x"`. -/
theorem given_line_counterexample :
    (parse_feature "Scenario: S\nGiven Given x").scenarios =
      [{ name := "S", given := ["x"], when_ := [], then_ := [] }] ∧
    ("x" : String) ≠ "Given x" := by
  constructor
  · decide
  · decide

/-- C9 amended: for a line beginning (after stripping) with `Given`, the
string appended to the open scenario's `given` list is the stripped line
with ALL occurrences of `Given` removed and the result stripped again
(equal to the post-keyword remainder only when the keyword does not
recur); when no scenario is open the line is a no-op. -/
theorem given_line_behavior (st : ParseState) (l : String)
    (h : pyStartsWith (pyStrip l) "Given" = true) :
    (∀ sc, st.current = some sc →
      (parseLine st l).current =
        some { sc with given := sc.given ++ [pyStrip (pyReplace (pyStrip l) "Given" "")] } ∧
      (parseLine st l).scenarios = st.scenarios ∧
      (parseLine st l).name = st.name) ∧
    (st.current = none → parseLine st l = st) := by
  have hF : pyStartsWith (pyStrip l) "Feature:" = false :=
    pyStartsWith_excl (pyStrip l) "Given" "Feature:" (by decide) (by decide) (by decide) h
  have hS : pyStartsWith (pyStrip l) "Scenario:" = false :=
    pyStartsWith_excl (pyStrip l) "Given" "Scenario:" (by decide) (by decide) (by decide) h
  constructor
  · intro sc hsc
    simp [parseLine, h, hF, hS, hsc]
  · intro hnone
    simp [parseLine, h, hF, hS, hnone]

theorem given_line_behavior_witness :
    (parseLine
        { name := "", description := "", scenarios := [],
          current := some { name := "S", given := [], when_ := [], then_ := [] } }
        "Given Given x").current =
      some { name := "S", given := ["x"], when_ := [], then_ := [] } ∧
    parseLine { name := "", description := "", scenarios := [], current := none }
        "Given y" =
      { name := "", description := "", scenarios := [], current := none } :=
  ⟨((given_line_behavior
      { name := "", description := "", scenarios := [],
        current := some { name := "S", given := [], when_ := [], then_ := [] } }
      "Given Given x" (by decide)).1
      { name := "S", given := [], when_ := [], then_ := [] } rfl).1,
   (given_line_behavior
      { name := "", description := "", scenarios := [], current := none }
      "Given y" (by decide)).2 rfl⟩

/-- C1 counterexample: `detect_key_columns` has no precedence between its
bucket tests — `customer_id` is appended to BOTH `primary_keys` and
`foreign_keys`, so it does not land in exactly one bucket. -/
theorem classify_counterexample :
    (detect_key_columns ["customer_id"]).primary_keys = ["customer_id"] ∧
    (detect_key_columns ["customer_id"]).foreign_keys = ["customer_id"] := by
  constructor
  · decide
  · decide

/-- C1 amended: `detect_key_columns` applies its five bucket tests
independently (no precedence), so a column may land in several buckets:
on the claim's six example columns, `customer_id` lands in both
`primary_keys` and `foreign_keys`, while `fk_customer`, `created_at`,
`order_amount` and `status` each land in exactly their one bucket and
`description` lands in none. -/
theorem detect_key_columns_buckets :
    detect_key_columns
        ["customer_id", "fk_customer", "created_at", "order_amount", "status",
         "description"] =
      { primary_keys := ["customer_id"],
        foreign_keys := ["customer_id", "fk_customer"],
        date_columns := ["created_at"],
        amount_columns := ["order_amount"],
        status_columns := ["status"] } := by
  decide

/-- C7 counterexample: a column named `quantity` is NOT placed in the
amount bucket — the amount keyword list of `detect_key_columns` does not
contain `quantity` (nor `value` or `count`). -/
theorem quantity_counterexample :
    (detect_key_columns ["quantity"]).amount_columns ≠ ["quantity"] := by
  decide

/-- C2 counterexample: the Then-clause rule extractor of
`generate_dbt_schema_test` emits NO rules for the two entries of the
end-to-end example, not `[not_null, unique]` for column `id`. -/
theorem end_to_end_rules_counterexample :
    generate_dbt_schema_rules ["id should not be null", "id should be unique"] ≠
      [("id", DbtRule.not_null), ("id", DbtRule.unique)] := by
  decide

/-- C2 amended: the example input parses exactly as the claim states (one
feature, one scenario, the stated `given` and `then` lists), but the rule
extractor emits NOTHING for those `Then` entries: `not null` is not a
substring of `id should not be null` (the text reads `not be null`), and
neither entry contains the word `column` that the extractor's
`column[s]? <name>` regex requires; entries phrased
`column id is not null` / `column id should be unique` do emit
`not_null` and `unique` for column `id`. -/
theorem end_to_end_parse_and_rules :
    parse_feature
        "Feature: X\nScenario: S\nGiven a t with id\nThen id should not be null\nAnd id should be unique" =
      { name := "X", description := "",
        scenarios := [{ name := "S", given := ["a t with id"], when_ := [],
                        then_ := ["id should not be null", "id should be unique"] }] } ∧
    generate_dbt_schema_rules ["id should not be null", "id should be unique"] = [] ∧
    generate_dbt_schema_rules ["column id is not null", "column id should be unique"] =
      [("id", DbtRule.not_null), ("id", DbtRule.unique)] := by
  refine ⟨by decide, by decide, by decide⟩

/-- C5 (code evaluated at the failing input): a single `given` statement
with six distinct identifier tokens puts six lower-cased names into the
`columns` set of `_extract_all_columns`; the source then returns
`list(columns)[:5]`, whose membership and order follow Python's
hash-randomized set enumeration, so it cannot return "the first 5 in
first-seen order" as claimed. -/
theorem extract_all_columns_six_candidates :
    extract_all_columns_set
        { name := "F", description := "",
          scenarios := [{ name := "S",
                          given := ["alpha_one beta_two gamma_three delta_four epsilon_five zeta_six"],
                          when_ := [], then_ := [] }] } =
      ["alpha_one", "beta_two", "gamma_three", "delta_four", "epsilon_five",
       "zeta_six"] ∧
    5 < (extract_all_columns_set
        { name := "F", description := "",
          scenarios := [{ name := "S",
                          given := ["alpha_one beta_two gamma_three delta_four epsilon_five zeta_six"],
                          when_ := [], then_ := [] }] }).length := by
  refine ⟨by decide, by decide⟩

/-- C7 amended: the amount bucket of `detect_key_columns` is driven by the
substring list `amount`, `price`, `cost`, `total`, `sum`, `revenue` only
(no `value`, `quantity`, `count`): a singleton column lands in
`amount_columns` exactly when its lower-casing contains one of those six
words, and in particular `quantity` lands in no amount bucket. -/
theorem amount_bucket_characterization :
    (∀ col : String,
      (detect_key_columns [col]).amount_columns =
        if amount_words.any (fun w => pyContains (pyLower col) w) then [col] else []) ∧
    (detect_key_columns ["quantity"]).amount_columns = [] := by
  constructor
  · intro col
    simp only [detect_key_columns, List.foldl_cons, List.foldl_nil, detectOne]
    split_ifs <;> rfl
  · decide

theorem mem_dedupFirstAux {α : Type} [DecidableEq α] (l : List α) :
    ∀ (seen : List α) (x : α), x ∈ dedupFirstAux seen l → x ∈ l := by
  induction l with
  | nil => intro seen x h; simp [dedupFirstAux] at h
  | cons a rest ih =>
    intro seen x h
    simp only [dedupFirstAux] at h
    split_ifs at h with ha
    · exact List.mem_cons_of_mem a (ih seen x h)
    · rcases List.mem_cons.mp h with h1 | h2
      · exact h1 ▸ List.mem_cons_self a rest
      · exact List.mem_cons_of_mem a (ih (a :: seen) x h2)

theorem column_of_item_not_reserved (item : List Char) (c : String)
    (h : column_of_item item = some c) : ¬ reservedWords.contains c = true := by
  simp only [column_of_item] at h
  split at h
  · exact absurd h (by simp)
  · split_ifs at h with hcond
    obtain rfl : (⟨stripParens _⟩ : String) = c := Option.some.inj h
    intro hcontains
    rw [hcontains] at hcond
    simp at hcond

/-- C6: `extract_columns_from_model` on the example projection yields
exactly the set `{id, name, created_at}`, and for EVERY input SQL text
none of the reserved words `from`, `where`, `group`, `order`, `having`
ever appears in the result (the filter is applied to every name before it
is appended). -/
theorem extract_columns_sql :
    (extract_columns_from_model "select id, name, created_at from t").toFinset =
      ({"id", "name", "created_at"} : Finset String) ∧
    ∀ (sql w : String), w ∈ reservedWords → w ∉ extract_columns_from_model sql := by
  constructor
  · decide
  · intro sql w hw hmem
    unfold extract_columns_from_model dedupFirst at hmem
    have h1 := mem_dedupFirstAux _ _ _ hmem
    rw [List.mem_flatMap] at h1
    obtain ⟨mtch, -, h2⟩ := h1
    rw [List.mem_filterMap] at h2
    obtain ⟨item, -, h3⟩ := h2
    exact column_of_item_not_reserved item w h3 (List.elem_eq_true_of_mem hw)

theorem extract_columns_sql_witness :
    ("from" : String) ∉ extract_columns_from_model "select a ,from, b from t" :=
  extract_columns_sql.2 "select a ,from, b from t" "from" (by decide)
